import Mathlib

/-!
Verification of the discovery-and-ranking pipeline in
`backend/Aadi/fetch_journals.py` (class `OpenAlexJournalFetcher`).

The Python code is shallowly embedded: dictionaries become structures with
`Option` fields (a `none` field models an absent key), Python numbers become
`ℤ`/`ℕ`/`ℚ` (the scorer's float arithmetic is exact decimal/rational here),
and the two network calls are modelled by explicit outcome parameters.
-/

namespace ResearchAI

/-- A value found in a position list of an abstract inverted index.
In Python this is dynamically typed; positions are expected to be ints but
malformed data may carry strings. -/
inductive PyPos where
  | int (n : ℤ)
  | str (s : String)
deriving DecidableEq

/-- The value an inverted-index word maps to.  Well-formed data is a list of
integer positions (`vals` with only `PyPos.int` entries); malformed data may
be a list with string entries, a bare string (Python iterates its characters),
or a non-iterable value (Python raises `TypeError` on iteration). -/
inductive PosVal where
  | vals (l : List PyPos)
  | strv (s : String)
  | nonIter
deriving DecidableEq

/-- An abstract inverted index: insertion-ordered word → positions map. -/
abbrev InvIndex := List (String × PosVal)

/-- The `journal_info` record built by `fetch_journals` (lines 113-127).
Every key is always present in the Python dict; a `none` models a `None`
value (source field absent).  `aptness_score` is `none` until the scorer
attaches it (line 212). -/
structure Journal where
  id : Option String
  title : Option String
  doi : Option String
  publication_year : Option ℕ
  cited_by_count : Option ℤ
  is_open_access : Option Bool
  oa_status : Option String
  journal_name : Option String
  journal_issn : Option (List String)
  abstract : Option InvIndex
  topics : List (Option String)
  keywords : List (Option String)
  url : Option String
  aptness_score : Option ℚ
deriving DecidableEq

/-- The search-criteria record loaded from `format.json`.  `none` models an
absent key. -/
structure Criteria where
  subjectArea : Option String
  keywords : List String
  openAccess : Option ℤ
  acceptancePercentFrom : Option ℤ
  acceptancePercentTo : Option ℤ
deriving DecidableEq

/-- Python `str.lower()` (ASCII-adequate for the data in play), written as a
structural map over the character list. -/
def pyLower (s : String) : String := String.mk (s.data.map Char.toLower)

/-- Python truthiness of the `openAccess` criteria value as used in
`bool(criteria.get('openAccess'))`: absent and 0 are falsy. -/
def pyTruthy : Option ℤ → Bool
  | none => false
  | some n => !(n == 0)

/-- Contiguous-substring occurrence over character lists. -/
def subOccurs (needle : List Char) : List Char → Bool
  | [] => needle.isEmpty
  | c :: t => needle.isPrefixOf (c :: t) || subOccurs needle t

/-- Python `needle in hay` on strings: contiguous substring test. -/
def pyInStr (needle hay : String) : Bool := subOccurs needle.data hay.data

/-- Line 153: `set(kw.lower() for kw in criteria.get('keywords', []) if kw)`.
Modelled as a duplicate-free list; CPython set iteration order is
unspecified and no proved claim depends on the order chosen by `dedup`. -/
def input_keyword_set (c : Criteria) : List String :=
  ((c.keywords.filter fun kw => !kw.isEmpty).map pyLower).dedup

/-- Line 156: `set(kw.lower() for kw in work.get('keywords', []) if kw)`.
`if kw` drops both `None` entries and empty strings. -/
def work_keyword_set (w : Journal) : List String :=
  (((w.keywords.filterMap id).filter fun kw => !kw.isEmpty).map pyLower).dedup

/-- Line 157: `len(input_keywords.intersection(work_keywords))`. -/
def keyword_matches (w : Journal) (c : Criteria) : ℕ :=
  ((input_keyword_set c).filter fun kw => (work_keyword_set w).contains kw).length

/-- Lines 159-160: lowercase, deduplicate and space-join the topic strings. -/
def work_topic_str (w : Journal) : String :=
  String.intercalate " "
    ((((w.topics.filterMap id).filter fun t => !t.isEmpty).map pyLower).dedup)

/-- Line 161: `sum(1 for kw in input_keywords if kw in topic_keywords)`. -/
def topic_matches (w : Journal) (c : Criteria) : ℕ :=
  ((input_keyword_set c).filter fun kw => pyInStr kw (work_topic_str w)).length

/-- Lines 155-168: the keyword/topic relevance term.  Contributes 0 when the
criteria keyword set is empty (no division by zero). -/
def relevance_score (w : Journal) (c : Criteria) : ℚ :=
  let max_possible := (input_keyword_set c).length
  if 0 < max_possible then
    ((keyword_matches w c + topic_matches w c : ℕ) : ℚ) / (max_possible : ℚ) * 60
  else 0

/-- Lines 170-190: the recency term.  `if pub_year:` means both an absent
year and a year equal to 0 contribute nothing (Python truthiness). -/
def recency_score (w : Journal) : ℚ :=
  match w.publication_year with
  | none => 0
  | some y =>
    if y = 0 then 0
    else
      let years_old : ℤ := 2025 - (y : ℤ)
      if years_old ≤ 5 then 25
      else if years_old ≤ 10 then 25 - ((years_old : ℚ) - 5) * 2
      else if years_old ≤ 20 then 15 - ((years_old : ℚ) - 10) * 1
      else 5

/-- Lines 192-194: the open-access match term.
`work.get('is_open_access') == bool(criteria.get('openAccess'))`:
an absent boolean never equals a Python bool. -/
def openness_score (w : Journal) (c : Criteria) : ℚ :=
  match w.is_open_access with
  | some b => if b = pyTruthy c.openAccess then 15 else 0
  | none => 0

/-- Lines 136-196: `calculate_aptness_score`, the sum of the three terms
capped at 100. -/
def calculate_aptness_score (w : Journal) (c : Criteria) : ℚ :=
  min (relevance_score w c + recency_score w + openness_score w c) 100

/-- A journal record with every optional field absent (all dict values
`None`, empty topic and keyword lists), before scoring. -/
def emptyJournal : Journal :=
  { id := none, title := none, doi := none, publication_year := none,
    cited_by_count := none, is_open_access := none, oa_status := none,
    journal_name := none, journal_issn := none, abstract := none,
    topics := [], keywords := [], url := none, aptness_score := none }

/-! ## Ranker (lines 198-218) -/

/-- Line 215: the sort key `journal['aptness_score']` (the key is always
present once the scorer has run; `getD 0` models the dict lookup). -/
def score_of (j : Journal) : ℚ := j.aptness_score.getD 0

/-- Line 212: `journal['aptness_score'] = self.calculate_aptness_score(...)`,
the in-place attachment of the score. -/
def with_score (c : Criteria) (j : Journal) : Journal :=
  { j with aptness_score := some (calculate_aptness_score j c) }

/-- Lines 211-212: the scoring pass over the whole candidate list. -/
def score_all (js : List Journal) (c : Criteria) : List Journal :=
  js.map (with_score c)

/-- The comparison under which Python's stable `sorted(..., reverse=True)`
keeps `a` before `b`: `a` stays first unless its score is strictly smaller.
Any stable sort with this comparison produces the same list Python does. -/
def rankLE (a b : Journal) : Bool := decide (score_of b ≤ score_of a)

/-- Lines 198-218: `rank_and_filter_journals` — score every journal, stable
sort descending by aptness score, return the first 15. -/
def rank_and_filter_journals (js : List Journal) (c : Criteria) : List Journal :=
  ((score_all js c).mergeSort rankLE).take 15

/-! ## Abstract reconstructor (lines 226-253)

The Python function is dynamically typed and wraps its body in
`try/except Exception`, so its behaviour on malformed data is part of its
contract.  The embedding makes the dynamic cases explicit:
a `PosVal.nonIter` positions value raises `TypeError` on iteration
(caught, → no abstract); a positions list containing both ints and strings
makes `list.sort` raise `TypeError` (caught, → no abstract), because the
sort must resolve the relative order of an int and a string through at
least one direct int/string comparison; a homogeneous list of strings (or
a bare string, whose iteration yields its characters) sorts fine. -/

/-- Iterate a positions value: `for pos in positions`.  `none` models the
`TypeError` raised by iterating a non-iterable. -/
def posItems : PosVal → Option (List PyPos)
  | .vals l => some l
  | .strv s => some (s.data.map fun ch => PyPos.str (String.mk [ch]))
  | .nonIter => none

/-- Lines 241-244: flatten the index to `(position, word)` pairs, one per
occurrence, in dict insertion order; `none` models an uncaught-in-loop
`TypeError` (which the surrounding `except` then catches). -/
def flattenIndex : List (String × PosVal) → Option (List (PyPos × String))
  | [] => some []
  | (w, pv) :: rest =>
    match posItems pv with
    | none => none
    | some ps =>
      match flattenIndex rest with
      | none => none
      | some tail => some (ps.map (fun p => (p, w)) ++ tail)

/-- Whether a position value is an int (as opposed to a string). -/
def isIntPos : PyPos → Bool
  | .int _ => true
  | .str _ => false

/-- A pair list whose position keys mix ints and strings: sorting it in
Python necessarily performs an int/string comparison and raises. -/
def mixedTypes (pairs : List (PyPos × String)) : Bool :=
  (pairs.any fun p => isIntPos p.1) && (pairs.any fun p => !isIntPos p.1)

/-- Lexicographic (code-point) comparison of character lists: the `<=`
under which Python's stable ascending sort of strings keeps the left
element first. -/
def charsLE : List Char → List Char → Bool
  | [], _ => true
  | _ :: _, [] => false
  | a :: as, b :: bs =>
    if a = b then charsLE as bs
    else decide (a < b)

/-- Python's `<=`-style comparison on homogeneous position keys
(int/int numeric, str/str lexicographic by code point).  The two
cross-type cases never reach the sort — `mixedTypes` guards them — so
their values here are an arbitrary totalization. -/
def pyPosLE : PyPos → PyPos → Bool
  | .int a, .int b => decide (a ≤ b)
  | .str a, .str b => charsLE a.data b.data
  | .int _, .str _ => true
  | .str _, .int _ => false

/-- Line 247 sort key: compare pairs by their first component. -/
def pairLE (a b : PyPos × String) : Bool := pyPosLE a.1 b.1

/-- Lines 226-253: `reconstruct_abstract`.  Returns `none` (the "no
abstract" value — Python `None`, not an empty string) for an absent or
empty index, for any caught exception, and for an empty reconstruction. -/
def reconstruct_abstract : Option InvIndex → Option String
  | none => none
  | some [] => none
  | some idx =>
    match flattenIndex idx with
    | none => none
    | some pairs =>
      if mixedTypes pairs then none
      else
        let sorted := pairs.mergeSort pairLE
        let abstract := String.intercalate " " (sorted.map fun p => p.2)
        if abstract = "" then none else some abstract

/-! ## Search client (lines 87-134) -/

/-- One entry of a work's `topics` array. -/
structure TopicRec where
  display_name : Option String
deriving DecidableEq

/-- One entry of a work's `keywords` array. -/
structure KeywordRec where
  keyword : Option String
deriving DecidableEq

/-- A work's `open_access` object. -/
structure OpenAccessRec where
  is_oa : Option Bool
  oa_status : Option String
deriving DecidableEq

/-- A `primary_location.source` object. -/
structure SourceRec where
  display_name : Option String
  issn : Option (List String)
deriving DecidableEq

/-- A work's `primary_location` object. -/
structure LocationRec where
  source : Option SourceRec
  landing_page_url : Option String
deriving DecidableEq

/-- One work record of the search response; every field is optional
(`none` models an absent key). -/
structure Work where
  id : Option String
  display_name : Option String
  doi : Option String
  publication_year : Option ℕ
  cited_by_count : Option ℤ
  open_access : Option OpenAccessRec
  primary_location : Option LocationRec
  abstract_inverted_index : Option InvIndex
  topics : Option (List TopicRec)
  keywords : Option (List KeywordRec)
deriving DecidableEq

/-- The parsed response envelope; `results` may be absent (line 108's
`data.get('results', [])`). -/
structure ResponseBody where
  results : Option (List Work)
deriving DecidableEq

/-- Lines 113-127: field-by-field extraction of one work into a
`journal_info` record.  Chained `.get(..., {})` on absent keys yields
`none` at the end of each path; absent `topics`/`keywords` arrays default
to `[]`. -/
def work_to_journal (w : Work) : Journal :=
  { id := w.id
    title := w.display_name
    doi := w.doi
    publication_year := w.publication_year
    cited_by_count := w.cited_by_count
    is_open_access := w.open_access.bind (fun oa => oa.is_oa)
    oa_status := w.open_access.bind (fun oa => oa.oa_status)
    journal_name := (w.primary_location.bind (fun pl => pl.source)).bind (fun s => s.display_name)
    journal_issn := (w.primary_location.bind (fun pl => pl.source)).bind (fun s => s.issn)
    abstract := w.abstract_inverted_index
    topics := (w.topics.getD []).map (fun t => t.display_name)
    keywords := (w.keywords.getD []).map (fun k => k.keyword)
    url := w.primary_location.bind (fun pl => pl.landing_page_url)
    aptness_score := none }

/-- Lines 87-134: `fetch_journals`.  The transport outcome (lines 104-107:
`requests.get`, `raise_for_status`, `response.json()`) is an explicit
parameter; a `RequestException` is caught and yields `[]` (lines 132-134). -/
def fetch_journals : Except String ResponseBody → List Journal
  | .error _ => []
  | .ok body => (body.results.getD []).map work_to_journal

/-- A work record with every key absent. -/
def emptyWork : Work :=
  { id := none, display_name := none, doi := none, publication_year := none,
    cited_by_count := none, open_access := none, primary_location := none,
    abstract_inverted_index := none, topics := none, keywords := none }

/-! ## Enrichment and materialization (lines 255-396) -/

/-- One part of a generative-response content object. -/
structure GeminiPart where
  text : Option String
deriving DecidableEq

/-- A generative-response content object; `parts` may be absent. -/
structure GeminiContent where
  parts : Option (List GeminiPart)
deriving DecidableEq

/-- One candidate of the generative response; `content` may be absent. -/
structure GeminiCandidate where
  content : Option GeminiContent
deriving DecidableEq

/-- The parsed generative-response body; `candidates` may be absent. -/
structure GeminiBody where
  candidates : Option (List GeminiCandidate)
deriving DecidableEq

/-- Outcome of the one HTTP POST in `generate_abstract_with_gemini`:
a timeout (line 325), any other exception (line 328), or a parsed body. -/
inductive GeminiOutcome where
  | timeout
  | failure
  | ok (body : GeminiBody)
deriving DecidableEq

/-- Lines 255-330: `generate_abstract_with_gemini`.  The prompt assembly
(lines 274-308) only feeds the HTTP request, which is modelled by the
`outcome` parameter, so the title/venue/year/topics inputs are elided. -/
def generate_abstract_with_gemini (gemini_api_key : String)
    (outcome : GeminiOutcome) : String :=
  if gemini_api_key.isEmpty then
    "Abstract not available. Please configure GEMINI_API_KEY in .env file."
  else
    match outcome with
    | .timeout => "Abstract generation timed out."
    | .failure => "Abstract generation failed."
    | .ok body =>
      match body.candidates with
      | some (cand :: _) =>
        match (cand.content.bind (fun ct => ct.parts)).getD [] with
        | part :: _ =>
          match part.text with
          | some t =>
            let abstract := t.trim
            if abstract.isEmpty then "Abstract not available." else abstract
          | none => "Abstract not available."
        | [] => "Abstract not available."
      | _ => "Abstract not available."

/-- The record shape written for each of the top 3 journals
(lines 372-389).  Journal records built by `fetch_journals` always carry
every key, so the `.get(..., 'N/A')` defaults on journal fields never fire
and those fields keep their (possibly `None`) values; the criteria
defaults (`0`, `100`, `'N/A'`) are modelled with `getD`. -/
structure EnrichedSummary where
  title : Option String
  abstract : String
  publishedYear : Option ℕ
  publishedBy : Option String
  acceptanceFrom : ℤ
  acceptanceTo : ℤ
  subjectArea : String
  openAccess : Option String
  citedByCount : Option ℤ
  doi : Option String
  url : Option String
  aptnessScore : ℚ
  journalISSN : Option (List String)
  topics : List (Option String)
deriving DecidableEq

/-- Lines 346-390: processing of one shortlisted journal — reconstruct the
abstract, otherwise fall back to the generative service when a credential
is configured, otherwise emit the fixed configuration sentinel; then shape
the public record. -/
def enrich_journal (gemini_api_key : String) (outcome : GeminiOutcome)
    (c : Criteria) (j : Journal) : EnrichedSummary :=
  let abstract :=
    match reconstruct_abstract j.abstract with
    | some a => a
    | none =>
      if !gemini_api_key.isEmpty then
        generate_abstract_with_gemini gemini_api_key outcome
      else
        "Abstract not available. Configure GEMINI_API_KEY for automatic generation."
  { title := j.title
    abstract := abstract
    publishedYear := j.publication_year
    publishedBy := j.journal_name
    acceptanceFrom := c.acceptancePercentFrom.getD 0
    acceptanceTo := c.acceptancePercentTo.getD 100
    subjectArea := (c.subjectArea.getD "N/A")
    openAccess := j.oa_status
    citedByCount := j.cited_by_count
    doi := j.doi
    url := j.url
    aptnessScore := j.aptness_score.getD 0
    journalISSN := j.journal_issn
    topics := j.topics }

/-- Lines 332-396: `save_final_results` — take the top 3 ranked journals,
enrich each, and return the list written (as one full overwrite) to the
output document.  `outcomes i` is the generative-service outcome for the
`i`-th processed journal. -/
def save_final_results (gemini_api_key : String)
    (outcomes : ℕ → GeminiOutcome) (journals : List Journal)
    (c : Criteria) : List EnrichedSummary :=
  (journals.take 3).enum.map fun p =>
    enrich_journal gemini_api_key (outcomes p.1) c p.2

/-! ## The reference recency curve and concrete records used in claims -/

/-- The spec's recency curve, written from the spec's words (§4.4):
a piecewise function of `age = referenceYear − publicationYear` with
breakpoints at 5, 10 and 20. -/
def recencySpec (age : ℤ) : ℚ :=
  if age ≤ 5 then 25
  else if age ≤ 10 then 25 - 2 * ((age : ℚ) - 5)
  else if age ≤ 20 then 15 - ((age : ℚ) - 10)
  else 5

/-- A criteria record with every field absent and no keywords. -/
def plainCriteria : Criteria :=
  { subjectArea := none, keywords := [], openAccess := none,
    acceptancePercentFrom := none, acceptancePercentTo := none }

/-- The spec scenario criteria: `{keywords:["graph","attention"], openAccess:1}`. -/
def scenarioCriteria : Criteria :=
  { plainCriteria with keywords := ["graph", "attention"], openAccess := some 1 }

/-- The spec scenario candidate: keywords `{"graph"}`, topics
`{"graph attention network"}`, publicationYear 2024, open access. -/
def scenarioJournal2024 : Journal :=
  { emptyJournal with
    keywords := [some "graph"]
    topics := [some "graph attention network"]
    publication_year := some 2024
    is_open_access := some true }

/-- The same scenario candidate with publicationYear 2005. -/
def scenarioJournal2005 : Journal :=
  { scenarioJournal2024 with publication_year := some 2005 }

/-- Criteria with the single keyword `"graph"` and open access requested. -/
def singleKeywordCriteria : Criteria :=
  { plainCriteria with keywords := ["graph"], openAccess := some 1 }

/-- A candidate whose keyword set and topic set both contain `"graph"`:
the one criteria keyword is counted by both halves of the relevance term. -/
def doubledJournal : Journal :=
  { emptyJournal with
    keywords := [some "graph"]
    topics := [some "graph"]
    publication_year := some 2024
    is_open_access := some true }

/-- Criteria with the single keyword `"transformer"`. -/
def oneKeywordCriteria : Criteria :=
  { plainCriteria with keywords := ["transformer"] }

/-- A candidate whose keyword set contains every criteria keyword of
`oneKeywordCriteria` and whose topics also contain it as a substring. -/
def fullMatchJournal : Journal :=
  { emptyJournal with
    keywords := [some "transformer"]
    topics := [some "transformer models"] }

/-- Two distinct journals that score identically under `plainCriteria`
(used to exercise stable-tie behaviour). -/
def tieJournalA : Journal := { emptyJournal with title := some "A" }

/-- See `tieJournalA`. -/
def tieJournalB : Journal := { emptyJournal with title := some "B" }

/-! ## Helper lemmas about the scoring terms -/

theorem relevance_score_nonneg (w : Journal) (c : Criteria) : 0 ≤ relevance_score w c := by
  simp only [relevance_score]
  split
  · positivity
  · norm_num

theorem recency_score_nonneg (w : Journal) : 0 ≤ recency_score w := by
  cases hw : w.publication_year with
  | none => simp [recency_score, hw]
  | some y =>
    simp only [recency_score, hw]
    split_ifs with h0 h1 h2 h3
    · norm_num
    · norm_num
    · have hc : ((2025 - (y : ℤ) : ℤ) : ℚ) ≤ 10 := by exact_mod_cast h2
      linarith
    · have hc : ((2025 - (y : ℤ) : ℤ) : ℚ) ≤ 20 := by exact_mod_cast h3
      linarith
    · norm_num

theorem openness_score_nonneg (w : Journal) (c : Criteria) : 0 ≤ openness_score w c := by
  cases hb : w.is_open_access with
  | none => simp [openness_score, hb]
  | some b =>
    simp only [openness_score, hb]
    split_ifs <;> norm_num

theorem recencySpec_of_le5 {a : ℤ} (h : a ≤ 5) : recencySpec a = 25 := by
  rw [recencySpec, if_pos h]

theorem recencySpec_mid {a : ℤ} (h1 : 5 < a) (h2 : a ≤ 10) :
    recencySpec a = 25 - 2 * ((a : ℚ) - 5) := by
  rw [recencySpec, if_neg (by omega), if_pos h2]

theorem recencySpec_late {a : ℤ} (h1 : 10 < a) (h2 : a ≤ 20) :
    recencySpec a = 15 - ((a : ℚ) - 10) := by
  rw [recencySpec, if_neg (by omega), if_neg (by omega), if_pos h2]

theorem recencySpec_old {a : ℤ} (h : 20 < a) : recencySpec a = 5 := by
  rw [recencySpec, if_neg (by omega), if_neg (by omega), if_neg (by omega)]

theorem recencySpec_le_25 (a : ℤ) : recencySpec a ≤ 25 := by
  rcases le_or_lt a 5 with h | h
  · rw [recencySpec_of_le5 h]
  · rcases le_or_lt a 10 with h2 | h2
    · rw [recencySpec_mid h h2]
      have hc : (5 : ℚ) < (a : ℚ) := by exact_mod_cast h
      linarith
    · rcases le_or_lt a 20 with h3 | h3
      · rw [recencySpec_late h2 h3]
        have hc : (10 : ℚ) < (a : ℚ) := by exact_mod_cast h2
        linarith
      · rw [recencySpec_old h3]; norm_num

theorem five_le_recencySpec (a : ℤ) : 5 ≤ recencySpec a := by
  rcases le_or_lt a 5 with h | h
  · rw [recencySpec_of_le5 h]; norm_num
  · rcases le_or_lt a 10 with h2 | h2
    · rw [recencySpec_mid h h2]
      have hc : (a : ℚ) ≤ 10 := by exact_mod_cast h2
      linarith
    · rcases le_or_lt a 20 with h3 | h3
      · rw [recencySpec_late h2 h3]
        have hc : (a : ℚ) ≤ 20 := by exact_mod_cast h3
        linarith
      · rw [recencySpec_old h3]

theorem recencySpec_antitone {a b : ℤ} (hab : a ≤ b) : recencySpec b ≤ recencySpec a := by
  rcases le_or_lt a 5 with ha | ha
  · rw [recencySpec_of_le5 ha]
    exact recencySpec_le_25 b
  · rcases le_or_lt b 10 with hb | hb
    · rw [recencySpec_mid (lt_of_lt_of_le ha hab) hb, recencySpec_mid ha (le_trans hab hb)]
      have hc : (a : ℚ) ≤ (b : ℚ) := by exact_mod_cast hab
      linarith
    · rcases le_or_lt a 10 with ha10 | ha10
      · rw [recencySpec_mid ha ha10]
        have hble : recencySpec b ≤ 15 := by
          rcases le_or_lt b 20 with hb20 | hb20
          · rw [recencySpec_late hb hb20]
            have hc : (10 : ℚ) < (b : ℚ) := by exact_mod_cast hb
            linarith
          · rw [recencySpec_old hb20]; norm_num
        have hc : (a : ℚ) ≤ 10 := by exact_mod_cast ha10
        linarith
      · rcases le_or_lt b 20 with hb20 | hb20
        · rw [recencySpec_late (lt_of_lt_of_le ha10 hab) hb20,
            recencySpec_late ha10 (le_trans hab hb20)]
          have hc : (a : ℚ) ≤ (b : ℚ) := by exact_mod_cast hab
          linarith
        · rw [recencySpec_old hb20]
          exact five_le_recencySpec a

/-! ## Claim theorems -/

/-- C1: for every candidate and every criteria record, the aptness score
returned by `calculate_aptness_score` lies in the closed interval
`[0, 100]`. -/
theorem aptness_score_in_range (w : Journal) (c : Criteria) :
    0 ≤ calculate_aptness_score w c ∧ calculate_aptness_score w c ≤ 100 := by
  constructor
  · rw [calculate_aptness_score]
    refine le_min (add_nonneg (add_nonneg ?_ ?_) ?_) (by norm_num)
    · exact relevance_score_nonneg w c
    · exact recency_score_nonneg w
    · exact openness_score_nonneg w c
  · rw [calculate_aptness_score]
    exact min_le_right _ _

/-- C5: the recency term equals the spec's piecewise curve of
`age = 2025 − publicationYear` for every candidate with a (positive)
publication year, the curve is monotonically non-increasing in age, it
takes the stated breakpoint values, and a candidate with no publication
year gets recency 0. -/
theorem recency_term_spec :
    (∀ w : Journal, w.publication_year = none → recency_score w = 0) ∧
    (∀ (w : Journal) (y : ℕ), w.publication_year = some y → 0 < y →
      recency_score w = recencySpec (2025 - (y : ℤ))) ∧
    (∀ a b : ℤ, a ≤ b → recencySpec b ≤ recencySpec a) ∧
    recencySpec 5 = 25 ∧ recencySpec 10 = 15 ∧ recencySpec 20 = 5 ∧
    recencySpec 25 = 5 := by
  refine ⟨?_, ?_, ?_, ?_, ?_, ?_, ?_⟩
  · intro w hw
    simp [recency_score, hw]
  · intro w y hw hy
    simp only [recency_score, hw]
    rw [if_neg (by omega : ¬ y = 0), recencySpec]
    split_ifs <;> ring
  · exact fun a b h => recencySpec_antitone h
  · norm_num [recencySpec]
  · norm_num [recencySpec]
  · norm_num [recencySpec]
  · norm_num [recencySpec]

/-- Witness for C5: the recency clauses applied at a concrete journal with
publication year 2015 (age 10) and at the concrete ages 3 ≤ 25. -/
theorem recency_term_spec_witness :
    recency_score { emptyJournal with publication_year := some 2015 } = 15 ∧
    recencySpec 25 ≤ recencySpec 3 := by
  constructor
  · have h := recency_term_spec.2.1 { emptyJournal with publication_year := some 2015 }
      2015 rfl (by norm_num)
    rw [h]
    norm_num [recencySpec]
  · exact recency_term_spec.2.2.1 3 25 (by norm_num)

/-- C2 (documents a code bug): evaluating the scorer at the spec's own
scenario.  The criteria keyword "graph" is counted both as a keyword-set
match and as a topic-substring match, and "attention" as a topic-substring
match, so the relevance term is `(1+2)/2 × 60 = 90`, not the claimed 60;
the 2024 total is `min(90+25+15, 100) = 100` (agreeing with the claim only
because of the cap) and the 2005 total is `min(90+5+15, 100) = 100`, not
the claimed 80. -/
theorem scenario_scores_eval :
    relevance_score scenarioJournal2024 scenarioCriteria = 90 ∧
    recency_score scenarioJournal2024 = 25 ∧
    openness_score scenarioJournal2024 scenarioCriteria = 15 ∧
    calculate_aptness_score scenarioJournal2024 scenarioCriteria = 100 ∧
    recency_score scenarioJournal2005 = 5 ∧
    calculate_aptness_score scenarioJournal2005 scenarioCriteria = 100 := by
  have hrel24 : relevance_score scenarioJournal2024 scenarioCriteria = 90 := by
    rw [relevance_score,
      show keyword_matches scenarioJournal2024 scenarioCriteria = 1 by decide,
      show topic_matches scenarioJournal2024 scenarioCriteria = 2 by decide,
      show (input_keyword_set scenarioCriteria).length = 2 by decide]
    norm_num
  have hrel05 : relevance_score scenarioJournal2005 scenarioCriteria = 90 := by
    rw [relevance_score,
      show keyword_matches scenarioJournal2005 scenarioCriteria = 1 by decide,
      show topic_matches scenarioJournal2005 scenarioCriteria = 2 by decide,
      show (input_keyword_set scenarioCriteria).length = 2 by decide]
    norm_num
  have hrec24 : recency_score scenarioJournal2024 = 25 := by
    rw [recency_score]
    norm_num [scenarioJournal2024, emptyJournal]
  have hrec05 : recency_score scenarioJournal2005 = 5 := by
    rw [recency_score]
    norm_num [scenarioJournal2005, scenarioJournal2024, emptyJournal]
  have hopn24 : openness_score scenarioJournal2024 scenarioCriteria = 15 := by
    rw [openness_score]
    norm_num [pyTruthy, scenarioJournal2024, scenarioCriteria, plainCriteria, emptyJournal]
  have hopn05 : openness_score scenarioJournal2005 scenarioCriteria = 15 := by
    rw [openness_score]
    norm_num [pyTruthy, scenarioJournal2005, scenarioJournal2024, scenarioCriteria,
      plainCriteria, emptyJournal]
  refine ⟨hrel24, hrec24, hopn24, ?_, hrec05, ?_⟩
  · rw [calculate_aptness_score, hrel24, hrec24, hopn24]
    norm_num
  · rw [calculate_aptness_score, hrel05, hrec05, hopn05]
    norm_num

/-- C3 (documents a code bug): the relevance term is not clamped to its
60-point budget.  With the single criteria keyword "graph" matching both
the candidate's keyword set and its topics, the relevance term is 120, the
pre-cap sum is 160, and the final `min(..., 100)` is not a no-op. -/
theorem relevance_exceeds_budget_eval :
    relevance_score doubledJournal singleKeywordCriteria = 120 ∧
    recency_score doubledJournal = 25 ∧
    openness_score doubledJournal singleKeywordCriteria = 15 ∧
    relevance_score doubledJournal singleKeywordCriteria + recency_score doubledJournal +
      openness_score doubledJournal singleKeywordCriteria = 160 ∧
    calculate_aptness_score doubledJournal singleKeywordCriteria = 100 := by
  have hrel : relevance_score doubledJournal singleKeywordCriteria = 120 := by
    rw [relevance_score,
      show keyword_matches doubledJournal singleKeywordCriteria = 1 by decide,
      show topic_matches doubledJournal singleKeywordCriteria = 1 by decide,
      show (input_keyword_set singleKeywordCriteria).length = 1 by decide]
    norm_num
  have hrec : recency_score doubledJournal = 25 := by
    rw [recency_score]
    norm_num [doubledJournal, emptyJournal]
  have hopn : openness_score doubledJournal singleKeywordCriteria = 15 := by
    rw [openness_score]
    norm_num [pyTruthy, doubledJournal, singleKeywordCriteria, plainCriteria, emptyJournal]
  refine ⟨hrel, hrec, hopn, ?_, ?_⟩
  · rw [hrel, hrec, hopn]; norm_num
  · rw [calculate_aptness_score, hrel, hrec, hopn]
    norm_num

/-- C4 (documents a code bug): the relevance term is 0 for the empty
criteria keyword set, but it is not "exactly 60" whenever every criteria
keyword appears in the candidate's keyword set — if a keyword also occurs
inside a topic string it is double-counted and the term is 120. -/
theorem relevance_full_match_eval :
    (∀ w : Journal, relevance_score w plainCriteria = 0) ∧
    relevance_score fullMatchJournal oneKeywordCriteria = 120 := by
  constructor
  · intro w
    rw [relevance_score, show (input_keyword_set plainCriteria).length = 0 by decide]
    norm_num
  · rw [relevance_score,
      show keyword_matches fullMatchJournal oneKeywordCriteria = 1 by decide,
      show topic_matches fullMatchJournal oneKeywordCriteria = 1 by decide,
      show (input_keyword_set oneKeywordCriteria).length = 1 by decide]
    norm_num

theorem rankLE_trans : ∀ a b c : Journal, rankLE a b → rankLE b c → rankLE a c := by
  intro a b c h1 h2
  simp only [rankLE, decide_eq_true_eq] at h1 h2 ⊢
  exact le_trans h2 h1

theorem rankLE_total : ∀ a b : Journal, rankLE a b || rankLE b a := by
  intro a b
  simp only [rankLE, Bool.or_eq_true, decide_eq_true_eq]
  exact le_total (score_of b) (score_of a)

/-- C6: the ranker's output has length `min 15 n`, is sorted in descending
order of aptness score, is a prefix of a permutation of the scored input,
and the underlying sort is stable: two equal-scored journals that appear
in order in the scored list appear in the same order in the sorted list. -/
theorem ranker_sorted_stable_top15 (js : List Journal) (c : Criteria) :
    (rank_and_filter_journals js c).length = min 15 js.length ∧
    (rank_and_filter_journals js c).Pairwise (fun a b => score_of b ≤ score_of a) ∧
    (∃ rest, (rank_and_filter_journals js c ++ rest).Perm (score_all js c)) ∧
    (∀ a b : Journal, List.Sublist [a, b] (score_all js c) → score_of a = score_of b →
      List.Sublist [a, b] ((score_all js c).mergeSort rankLE)) := by
  refine ⟨?_, ?_, ?_, ?_⟩
  · rw [rank_and_filter_journals, List.length_take, List.length_mergeSort]
    simp [score_all]
  · rw [rank_and_filter_journals]
    have hs := List.sorted_mergeSort rankLE_trans rankLE_total (score_all js c)
    have ht := List.Pairwise.sublist
      (List.take_sublist 15 ((score_all js c).mergeSort rankLE)) hs
    exact ht.imp fun h => by simpa [rankLE] using h
  · refine ⟨((score_all js c).mergeSort rankLE).drop 15, ?_⟩
    rw [rank_and_filter_journals, List.take_append_drop]
    exact List.mergeSort_perm _ _
  · intro a b hsub heq
    refine List.pair_sublist_mergeSort rankLE_trans rankLE_total ?_ hsub
    simp [rankLE, heq]

/-- Witness for C6: two distinct journals tie under `plainCriteria`; the
stability clause keeps them in input order, and the length clause holds. -/
theorem ranker_sorted_stable_top15_witness :
    List.Sublist [with_score plainCriteria tieJournalA, with_score plainCriteria tieJournalB]
      ((score_all [tieJournalA, tieJournalB] plainCriteria).mergeSort rankLE) ∧
    (rank_and_filter_journals [tieJournalA, tieJournalB] plainCriteria).length = min 15 2 := by
  constructor
  · exact (ranker_sorted_stable_top15 [tieJournalA, tieJournalB] plainCriteria).2.2.2
      (with_score plainCriteria tieJournalA) (with_score plainCriteria tieJournalB)
      (List.Sublist.refl _) rfl
  · exact (ranker_sorted_stable_top15 [tieJournalA, tieJournalB] plainCriteria).1

/-- C10: scoring attaches `aptness_score` and changes nothing else — every
other field of `with_score c j` equals the corresponding field of `j` —
and every record returned by `rank_and_filter_journals` is exactly some
input record with its score attached. -/
theorem scoring_frame_effect (js : List Journal) (c : Criteria) :
    (∀ j : Journal,
      (with_score c j).id = j.id ∧
      (with_score c j).title = j.title ∧
      (with_score c j).doi = j.doi ∧
      (with_score c j).publication_year = j.publication_year ∧
      (with_score c j).cited_by_count = j.cited_by_count ∧
      (with_score c j).is_open_access = j.is_open_access ∧
      (with_score c j).oa_status = j.oa_status ∧
      (with_score c j).journal_name = j.journal_name ∧
      (with_score c j).journal_issn = j.journal_issn ∧
      (with_score c j).abstract = j.abstract ∧
      (with_score c j).topics = j.topics ∧
      (with_score c j).keywords = j.keywords ∧
      (with_score c j).url = j.url ∧
      (with_score c j).aptness_score = some (calculate_aptness_score j c)) ∧
    (∀ j : Journal, j ∈ rank_and_filter_journals js c →
      ∃ i ∈ js, j = with_score c i) := by
  constructor
  · intro j
    exact ⟨rfl, rfl, rfl, rfl, rfl, rfl, rfl, rfl, rfl, rfl, rfl, rfl, rfl, rfl⟩
  · intro j hj
    rw [rank_and_filter_journals] at hj
    have h1 : j ∈ (score_all js c).mergeSort rankLE := List.mem_of_mem_take hj
    rw [List.mem_mergeSort, score_all, List.mem_map] at h1
    obtain ⟨i, hi, hji⟩ := h1
    exact ⟨i, hi, hji.symm⟩

/-- Witness for C10: the membership clause applied to the singleton input. -/
theorem scoring_frame_effect_witness :
    ∃ i ∈ [tieJournalA], with_score plainCriteria tieJournalA = with_score plainCriteria i := by
  refine (scoring_frame_effect [tieJournalA] plainCriteria).2
    (with_score plainCriteria tieJournalA) ?_
  simp [rank_and_filter_journals, score_all]

theorem charsLE_trans : ∀ x y z : List Char, charsLE x y → charsLE y z → charsLE x z := by
  intro x
  induction x with
  | nil => intro y z h1 h2; rfl
  | cons a as ih =>
    intro y z h1 h2
    cases y with
    | nil => exact absurd h1 (by simp [charsLE])
    | cons b bs =>
      cases z with
      | nil => exact absurd h2 (by simp [charsLE])
      | cons c cs =>
        simp only [charsLE] at h1 h2 ⊢
        by_cases hab : a = b
        · subst hab
          rw [if_pos rfl] at h1
          by_cases hac : a = c
          · subst hac
            rw [if_pos rfl] at h2 ⊢
            exact ih bs cs h1 h2
          · rw [if_neg hac] at h2 ⊢
            exact h2
        · rw [if_neg hab] at h1
          have hab' : a < b := of_decide_eq_true h1
          by_cases hbc : b = c
          · subst hbc
            rw [if_neg (ne_of_lt hab')]
            exact decide_eq_true hab'
          · rw [if_neg hbc] at h2
            have hbc' : b < c := of_decide_eq_true h2
            have hac' : a < c := lt_trans hab' hbc'
            rw [if_neg (ne_of_lt hac')]
            exact decide_eq_true hac'

theorem charsLE_total : ∀ x y : List Char, charsLE x y || charsLE y x := by
  intro x
  induction x with
  | nil => intro y; simp [charsLE]
  | cons a as ih =>
    intro y
    cases y with
    | nil => simp [charsLE]
    | cons b bs =>
      simp only [charsLE, Bool.or_eq_true]
      by_cases hab : a = b
      · subst hab
        rw [if_pos rfl, if_pos rfl]
        simpa [Bool.or_eq_true] using ih bs
      · rw [if_neg hab, if_neg (Ne.symm hab)]
        rcases lt_or_gt_of_ne hab with h | h
        · left; exact decide_eq_true h
        · right; exact decide_eq_true h

theorem pyPosLE_trans : ∀ a b c : PyPos, pyPosLE a b → pyPosLE b c → pyPosLE a c := by
  intro a b c h1 h2
  cases a with
  | int na =>
    cases c with
    | str _ => rfl
    | int nc =>
      cases b with
      | int nb =>
        simp only [pyPosLE, decide_eq_true_eq] at h1 h2 ⊢
        omega
      | str sb => exact absurd h2 (by simp [pyPosLE])
  | str sa =>
    cases b with
    | int nb => exact absurd h1 (by simp [pyPosLE])
    | str sb =>
      cases c with
      | int nc => exact absurd h2 (by simp [pyPosLE])
      | str sc =>
        simp only [pyPosLE] at h1 h2 ⊢
        exact charsLE_trans _ _ _ h1 h2

theorem pyPosLE_total : ∀ a b : PyPos, pyPosLE a b || pyPosLE b a := by
  intro a b
  cases a with
  | int na =>
    cases b with
    | int nb =>
      simp only [pyPosLE, Bool.or_eq_true, decide_eq_true_eq]
      omega
    | str _ => simp [pyPosLE]
  | str sa =>
    cases b with
    | int _ => simp [pyPosLE]
    | str sb =>
      simp only [pyPosLE, Bool.or_eq_true]
      simpa [Bool.or_eq_true] using charsLE_total sa.data sb.data

theorem pairLE_trans : ∀ a b c : PyPos × String, pairLE a b → pairLE b c → pairLE a c :=
  fun a b c h1 h2 => pyPosLE_trans a.1 b.1 c.1 h1 h2

theorem pairLE_total : ∀ a b : PyPos × String, pairLE a b || pairLE b a :=
  fun a b => pyPosLE_total a.1 b.1

theorem flattenIndex_of_nonIter {idx : InvIndex} {w : String}
    (h : (w, PosVal.nonIter) ∈ idx) : flattenIndex idx = none := by
  induction idx with
  | nil => cases h
  | cons p rest ih =>
    obtain ⟨pw, pv⟩ := p
    rcases List.mem_cons.mp h with heq | hmem
    · have hpv : pv = PosVal.nonIter := ((Prod.ext_iff.mp heq).2).symm
      subst hpv
      simp [flattenIndex, posItems]
    · have hr := ih hmem
      cases hpi : posItems pv <;> simp [flattenIndex, hpi, hr]

/-- C7 counterexample: a malformed index whose positions value is the
string `"01"` (not a list of integers).  Python iterates the string's
characters, sorts the two string keys without error, and returns `"a a"`
— reconstructed text, not the "no abstract" value. -/
theorem reconstructor_malformed_counterexample :
    reconstruct_abstract (some [("a", PosVal.strv "01")]) = some "a a" := by
  simp only [reconstruct_abstract, flattenIndex, posItems]
  rw [List.mergeSort_of_sorted (by decide)]
  decide

/-- C7 amended: the reconstructor returns the no-abstract value for an
absent or empty index; for a well-formed map it emits each word once per
listed position, stably sorted ascending by position and joined by single
spaces; exceptions are caught — a non-iterable positions value and a
positions list mixing ints and strings both degrade to no abstract — but
malformed input whose positions sort without a type error (e.g. string
positions) is processed like well-formed input and can return
reconstructed text instead of no abstract. -/
theorem reconstructor_behaviour :
    reconstruct_abstract none = none ∧
    reconstruct_abstract (some []) = none ∧
    reconstruct_abstract
      (some [("fast", PosVal.vals [PyPos.int 0]), ("cars", PosVal.vals [PyPos.int 1])]) =
      some "fast cars" ∧
    (∀ (idx : InvIndex) (w : String), (w, PosVal.nonIter) ∈ idx →
      reconstruct_abstract (some idx) = none) ∧
    (∀ (idx : InvIndex) (pairs : List (PyPos × String)),
      flattenIndex idx = some pairs → mixedTypes pairs = true →
      reconstruct_abstract (some idx) = none) ∧
    (∀ pairs : List (PyPos × String),
      (pairs.mergeSort pairLE).Perm pairs ∧
      (pairs.mergeSort pairLE).Pairwise (fun x y => pairLE x y = true)) ∧
    (∀ (idx : InvIndex) (pairs : List (PyPos × String)), idx ≠ [] →
      flattenIndex idx = some pairs → mixedTypes pairs = false →
      reconstruct_abstract (some idx) =
        (if String.intercalate " " ((pairs.mergeSort pairLE).map fun p => p.2) = "" then
          none
        else some (String.intercalate " " ((pairs.mergeSort pairLE).map fun p => p.2)))) := by
  refine ⟨rfl, rfl, ?_, ?_, ?_, ?_, ?_⟩
  · simp only [reconstruct_abstract, flattenIndex, posItems]
    rw [List.mergeSort_of_sorted (by decide)]
    decide
  · intro idx w h
    have hf := flattenIndex_of_nonIter h
    cases idx with
    | nil => cases h
    | cons q t => simp [reconstruct_abstract, hf]
  · intro idx pairs hf hm
    cases idx with
    | nil =>
      simp only [flattenIndex, Option.some.injEq] at hf
      subst hf
      simp [mixedTypes] at hm
    | cons q t => simp [reconstruct_abstract, hf, hm]
  · intro pairs
    exact ⟨List.mergeSort_perm _ _, List.sorted_mergeSort pairLE_trans pairLE_total _⟩
  · intro idx pairs hne hf hm
    cases idx with
    | nil => exact absurd rfl hne
    | cons q t => simp [reconstruct_abstract, hf, hm]

/-- Witness for C7: the degradation clauses applied at concrete malformed
inputs — a non-iterable positions value and a type-mixed positions list. -/
theorem reconstructor_behaviour_witness :
    reconstruct_abstract (some [("x", PosVal.nonIter)]) = none ∧
    reconstruct_abstract (some [("a", PosVal.vals [PyPos.int 0, PyPos.str "b"])]) = none := by
  constructor
  · exact reconstructor_behaviour.2.2.2.1 [("x", PosVal.nonIter)] "x" (by simp)
  · exact reconstructor_behaviour.2.2.2.2.1
      [("a", PosVal.vals [PyPos.int 0, PyPos.str "b"])]
      [(PyPos.int 0, "a"), (PyPos.str "b", "a")] (by decide) (by decide)

/-- C8: the search client maps a transport-level failure to the empty
candidate list, an absent `results` array to the empty list, and a
successful response record-by-record, with every absent source field
resolved to the candidate's absent/default value. -/
theorem fetch_journals_soft_failure :
    (∀ msg : String, fetch_journals (Except.error msg) = []) ∧
    fetch_journals (Except.ok { results := none }) = [] ∧
    (∀ works : List Work,
      fetch_journals (Except.ok { results := some works }) = works.map work_to_journal) ∧
    (∀ works : List Work,
      (fetch_journals (Except.ok { results := some works })).length = works.length) ∧
    work_to_journal emptyWork = emptyJournal := by
  refine ⟨fun _ => rfl, rfl, fun _ => rfl, fun works => ?_, rfl⟩
  simp [fetch_journals]

theorem reconstruct_abstract_ne_empty :
    ∀ (o : Option InvIndex) (a : String), reconstruct_abstract o = some a → a ≠ "" := by
  intro o a h
  rcases o with _ | idx
  · simp [reconstruct_abstract] at h
  rcases idx with _ | ⟨q, t⟩
  · simp [reconstruct_abstract] at h
  simp only [reconstruct_abstract] at h
  split at h
  · exact absurd h (by simp)
  · split_ifs at h with hm he
    exact fun heq => he ((Option.some.inj h).trans heq)

theorem generate_abstract_ne_empty (key : String) (oc : GeminiOutcome) :
    generate_abstract_with_gemini key oc ≠ "" := by
  rw [generate_abstract_with_gemini.eq_def]
  split_ifs with hk
  · decide
  · split <;> try decide
    split <;> try decide
    split <;> try decide
    split <;> try decide
    dsimp only
    split_ifs with ht
    · decide
    · intro heq
      exact ht (by rw [heq]; rfl)

theorem enrich_journal_abstract_ne_empty (key : String) (res : GeminiOutcome)
    (c : Criteria) (j : Journal) : (enrich_journal key res c j).abstract ≠ "" := by
  simp only [enrich_journal]
  split
  · rename_i a ha
    exact reconstruct_abstract_ne_empty _ _ ha
  · split_ifs with hk
    · exact generate_abstract_ne_empty _ _
    · decide

/-- C9: the enrichment step processes only the first 3 ranked entries, and
every record it emits carries a non-empty abstract string; when the
abstract cannot be reconstructed, a missing credential, a request timeout
and any other generative failure each yield their fixed sentinel string. -/
theorem enrichment_top3_and_sentinels (key : String) (oc : ℕ → GeminiOutcome)
    (js : List Journal) (c : Criteria) :
    (save_final_results key oc js c).length ≤ 3 ∧
    save_final_results key oc js c = save_final_results key oc (js.take 3) c ∧
    (∀ e ∈ save_final_results key oc js c, e.abstract ≠ "") ∧
    (∀ (res : GeminiOutcome) (j : Journal), reconstruct_abstract j.abstract = none →
      ((key = "" → (enrich_journal key res c j).abstract =
        "Abstract not available. Configure GEMINI_API_KEY for automatic generation.") ∧
       (key ≠ "" → res = GeminiOutcome.timeout → (enrich_journal key res c j).abstract =
        "Abstract generation timed out.") ∧
       (key ≠ "" → res = GeminiOutcome.failure → (enrich_journal key res c j).abstract =
        "Abstract generation failed."))) := by
  refine ⟨?_, ?_, ?_, ?_⟩
  · simp only [save_final_results, List.length_map, List.enum_length, List.length_take]
    omega
  · rw [save_final_results, save_final_results, List.take_take]
    norm_num
  · intro e he
    simp only [save_final_results, List.mem_map] at he
    obtain ⟨⟨i, j⟩, hmem, rfl⟩ := he
    exact enrich_journal_abstract_ne_empty _ _ _ _
  · intro res j hrec
    have hproj : ∀ ab : String, key ≠ "" → key.isEmpty = false := by
      intro _ hk
      rcases h : key.isEmpty with _ | _
      · rfl
      · exact absurd ((String.isEmpty_iff key).mp h) hk
    refine ⟨?_, ?_, ?_⟩
    · intro hk
      subst hk
      simp only [enrich_journal, hrec]
      rw [if_neg (by decide)]
    · intro hk hres
      subst hres
      have hke : key.isEmpty = false := hproj "" hk
      simp only [enrich_journal, hrec]
      rw [if_pos (by simp [hke])]
      rw [generate_abstract_with_gemini.eq_def, if_neg (by simp [hke])]
    · intro hk hres
      subst hres
      have hke : key.isEmpty = false := hproj "" hk
      simp only [enrich_journal, hrec]
      rw [if_pos (by simp [hke])]
      rw [generate_abstract_with_gemini.eq_def, if_neg (by simp [hke])]

/-- Witness for C9: the missing-credential and timeout sentinel clauses
applied at a concrete journal (no reconstructable abstract). -/
theorem enrichment_top3_and_sentinels_witness :
    (enrich_journal "" GeminiOutcome.timeout plainCriteria emptyJournal).abstract =
      "Abstract not available. Configure GEMINI_API_KEY for automatic generation." ∧
    (enrich_journal "k" GeminiOutcome.timeout plainCriteria emptyJournal).abstract =
      "Abstract generation timed out." := by
  constructor
  · exact ((enrichment_top3_and_sentinels "" (fun _ => GeminiOutcome.timeout) []
      plainCriteria).2.2.2 GeminiOutcome.timeout emptyJournal rfl).1 rfl
  · exact (((enrichment_top3_and_sentinels "k" (fun _ => GeminiOutcome.timeout) []
      plainCriteria).2.2.2 GeminiOutcome.timeout emptyJournal rfl).2.1 (by decide) rfl)

end ResearchAI
